import Mathlib

set_option maxRecDepth 8192

/-!
Verification of the request/response schema layer of `fish_speech`
(`fish_speech/utils/schema.py`).

The Python code is a set of pydantic (v2) models.  We shallow-embed:

* Python runtime values crossing the schema boundary as `PyVal`
  (None / bool / int / float / str / bytes / list / dict);
* Python floats as exact rationals (`ℚ`): every comparison the schemas
  perform is between a client-supplied literal and a bound literal, and
  those comparisons agree with IEEE semantics at all decision points used
  here;
* pydantic field validation as functions `PyVal → Option α`, following the
  documented pydantic-v2 conversion rules (lax mode unless `strict=True`
  is set in the source): in lax mode an `int` field accepts int,
  integral float and numeric string but never bool; a `float` field
  accepts float, int and numeric string; a `bytes` field accepts bytes
  and str (UTF-8 encoded); in strict mode an `int` field accepts only
  int, and a `float` field accepts float and also int (pydantic's
  documented strict-mode special case), but never str;
* model construction as a function from the keyword dict to
  `Except (List String) R`, collecting the offending field names
  (pydantic reports every failing field; construction is all-or-nothing);
* `base64.b64decode` (as called by `decode_audio`) including CPython's
  lenient `binascii.a2b_base64` behaviour: non-alphabet characters are
  skipped, `=` handling depends on the position inside the current
  4-character quantum, data ending at quantum position 1, 2 or 3 is an
  error, and a non-ASCII string fails before decoding;
* the filesystem touched by `AudioExample.load_from_path` as a function
  `String → Option (List Nat)` (path to file contents), and Python
  exceptions as an explicit error type.
-/

namespace FishSpeech

/-- A Python runtime value as it can appear in a request payload. -/
inductive PyVal where
  | vNone : PyVal
  | vBool (b : Bool) : PyVal
  | vInt (n : ℤ) : PyVal
  | vFloat (q : ℚ) : PyVal
  | vStr (s : String) : PyVal
  | vBytes (bs : List Nat) : PyVal
  | vList (xs : List PyVal) : PyVal
  | vDict (entries : List (String × PyVal)) : PyVal

/-- UTF-8 encoding of one character (what Python `str.encode()` does
per code point). -/
def utf8EncodeChar (c : Char) : List Nat :=
  let n := c.toNat
  if n < 128 then [n]
  else if n < 2048 then [192 + n / 64, 128 + n % 64]
  else if n < 65536 then [224 + n / 4096, 128 + n / 64 % 64, 128 + n % 64]
  else [240 + n / 262144, 128 + n / 4096 % 64, 128 + n / 64 % 64, 128 + n % 64]

/-- UTF-8 encoding of a string, as a byte list. -/
def utf8Encode (s : String) : List Nat :=
  (s.toList.map utf8EncodeChar).flatten

/-- Value of a base64 alphabet character (`A-Z a-z 0-9 + /`), `none` for
anything else. -/
def b64val (c : Char) : Option Nat :=
  let n := c.toNat
  if 65 ≤ n ∧ n ≤ 90 then some (n - 65)
  else if 97 ≤ n ∧ n ≤ 122 then some (n - 97 + 26)
  else if 48 ≤ n ∧ n ≤ 57 then some (n - 48 + 52)
  else if n = 43 then some 62
  else if n = 47 then some 63
  else none

/-- CPython `binascii.a2b_base64` (non-strict mode), the decoder behind
`base64.b64decode`.  State: remaining input, position inside the current
4-character quantum (0-3), bits carried over, count of padding characters
seen in this quantum, output accumulator (reversed).  Non-alphabet
characters are skipped; `=` at quantum position ≥ 2 counts as padding and
completes the quantum (the rest of the input is then ignored); input
ending at quantum position 1, 2 or 3 is an error. -/
def a2b_base64 : List Char → Nat → Nat → Nat → List Nat → Option (List Nat)
  | [], quadPos, _, _, acc => if quadPos = 0 then some acc.reverse else none
  | c :: rest, quadPos, leftchar, pads, acc =>
    if c = '=' then
      if 2 ≤ quadPos then
        if 4 ≤ quadPos + pads + 1 then some acc.reverse
        else a2b_base64 rest quadPos leftchar (pads + 1) acc
      else a2b_base64 rest quadPos leftchar pads acc
    else
      match b64val c with
      | none => a2b_base64 rest quadPos leftchar pads acc
      | some v =>
        let lc := leftchar * 64 + v
        match quadPos with
        | 0 => a2b_base64 rest 1 lc 0 acc
        | 1 => a2b_base64 rest 2 (lc % 16) 0 (lc / 16 :: acc)
        | 2 => a2b_base64 rest 3 (lc % 4) 0 (lc / 4 :: acc)
        | _ => a2b_base64 rest 0 0 0 (lc :: acc)

/-- Python `base64.b64decode` on a `str` argument: the string is first
ASCII-encoded (a non-ASCII character raises), then fed to the lenient
`a2b_base64`.  `none` models the raised `binascii.Error`/`ValueError`. -/
def b64decode (s : String) : Option (List Nat) :=
  if s.toList.all (fun c => c.toNat ≤ 127) then a2b_base64 s.toList 0 0 0 []
  else none

/-- Python `dict.get`: first binding of the key, if any. -/
def getVal (values : List (String × PyVal)) (key : String) : Option PyVal :=
  (values.find? (fun kv => kv.1 == key)).map (fun kv => kv.2)

/-- Python `dict.__setitem__`: replace the binding of the key, appending
if absent. -/
def setVal (values : List (String × PyVal)) (key : String) (v : PyVal) :
    List (String × PyVal) :=
  if (values.find? (fun kv => kv.1 == key)).isSome then
    values.map (fun kv => if kv.1 == key then (key, v) else kv)
  else values ++ [(key, v)]

/-- Parse a nonempty all-digit character list as a natural number. -/
def digitsToNat (cs : List Char) : Option Nat :=
  if cs.isEmpty then none
  else cs.foldlM
    (fun acc c => if c.isDigit then some (acc * 10 + (c.toNat - 48)) else none) 0

/-- Numeric-string-to-int coercion used by pydantic lax mode (plain
optionally-signed decimal integers, surrounding whitespace allowed). -/
def strToInt (s : String) : Option ℤ :=
  match s.trim.toList with
  | '-' :: cs => (digitsToNat cs).map (fun n => -(n : ℤ))
  | '+' :: cs => (digitsToNat cs).map (fun n => (n : ℤ))
  | cs => (digitsToNat cs).map (fun n => (n : ℤ))

/-- Numeric-string-to-float coercion used by pydantic lax mode (plain
optionally-signed decimal literals). -/
def strToFloat (s : String) : Option ℚ :=
  let core : List Char → Option ℚ := fun cs =>
    match cs.splitOn '.' with
    | [w] => (digitsToNat w).map (fun n => (n : ℚ))
    | [w, f] =>
      match digitsToNat w, digitsToNat f with
      | some n, some fr => some ((n : ℚ) + (fr : ℚ) / ((10 : ℚ) ^ f.length))
      | _, _ => none
    | _ => none
  match s.trim.toList with
  | '-' :: cs => (core cs).map (fun q => -q)
  | '+' :: cs => core cs
  | cs => core cs

/-- pydantic lax validation for a plain `int` field: int, integral float,
or numeric string; bool is always rejected for int fields. -/
def validateIntLax : PyVal → Option ℤ
  | .vInt n => some n
  | .vFloat q => if q.den = 1 then some q.num else none
  | .vStr s => strToInt s
  | _ => none

/-- pydantic lax validation for a plain `float` field: float, int, or
numeric string; bool is rejected. -/
def validateFloatLax : PyVal → Option ℚ
  | .vFloat q => some q
  | .vInt n => some ((n : ℚ))
  | .vStr s => strToFloat s
  | _ => none

/-- pydantic lax validation for a `bool` field: bool, the ints 0/1, the
floats 0.0/1.0, or one of the documented boolean strings. -/
def validateBoolLax : PyVal → Option Bool
  | .vBool b => some b
  | .vInt n => if n = 0 then some false else if n = 1 then some true else none
  | .vFloat q => if q = 0 then some false else if q = 1 then some true else none
  | .vStr s =>
    let t := s.toLower
    if t ∈ ["true", "t", "yes", "y", "on", "1"] then some true
    else if t ∈ ["false", "f", "no", "n", "off", "0"] then some false
    else none
  | _ => none

/-- pydantic validation for a `str` field (pydantic v2 never coerces
numbers to str). -/
def validateStr : PyVal → Option String
  | .vStr s => some s
  | _ => none

/-- pydantic lax validation for a `bytes` field: bytes pass through, str
is UTF-8 encoded.  The result is kept as a `PyVal` so that the shape of
the stored value is a provable fact rather than a typing assumption. -/
def validateBytesField : PyVal → Option PyVal
  | .vBytes bs => some (.vBytes bs)
  | .vStr s => some (.vBytes (utf8Encode s))
  | _ => none

/-- pydantic validation for a plain `dict` field. -/
def validateDict : PyVal → Option (List (String × PyVal))
  | .vDict d => some d
  | _ => none

/-- pydantic validation for a `Literal[...]` field over strings: the
value must be one of the listed strings. -/
def validateLiteral (allowed : List String) : PyVal → Option String
  | .vStr s => if s ∈ allowed then some s else none
  | _ => none

/-- `conint(ge, le, strict=True)`: only an actual int is accepted (no
float, no string, no bool), and it must lie inside the closed bounds. -/
def validateIntStrictBounded (lo hi : ℤ) : PyVal → Option ℤ
  | .vInt n => if lo ≤ n ∧ n ≤ hi then some n else none
  | _ => none

/-- `Field(ge, le, strict=True)` on a `float` field: a float, or — per
pydantic's documented strict-mode special case — an int coerced to
float; strings and bools are rejected; the closed bounds are checked. -/
def validateFloatStrictBounded (lo hi : ℚ) : PyVal → Option ℚ
  | .vFloat q => if lo ≤ q ∧ q ≤ hi then some q else none
  | .vInt n => if lo ≤ (n : ℚ) ∧ (n : ℚ) ≤ hi then some ((n : ℚ)) else none
  | _ => none

/-- `str | None` field. -/
def validateOptStr : PyVal → Option (Option String)
  | .vNone => some none
  | .vStr s => some (some s)
  | _ => none

/-- `int | None` field (lax int rules for non-None input). -/
def validateOptInt : PyVal → Option (Option ℤ)
  | .vNone => some none
  | v => (validateIntLax v).map some

/-- Validation outcome for one field: `none` on the left means the field
failed (missing required value or failed coercion/bound). -/
def reqField (values : List (String × PyVal)) (name : String)
    (f : PyVal → Option α) : Option α :=
  match getVal values name with
  | none => none
  | some v => f v

/-- A field with a default: omitted means the default, supplied means it
must validate. -/
def optField (values : List (String × PyVal)) (name : String)
    (f : PyVal → Option α) (dflt : α) : Option α :=
  match getVal values name with
  | none => some dflt
  | some v => f v

/-- Names of the fields that failed, in declaration order. -/
def errNames (l : List (String × Bool)) : List String :=
  (l.filter (fun p => p.2)).map (fun p => p.1)

/-- Is the construction result a success? -/
def exceptIsOk : Except (List String) α → Bool
  | .ok _ => true
  | .error _ => false

/-- `class ServeVQPart(BaseModel)`: `type: Literal["vq"] = "vq"`,
`codes: SkipValidation[list[list[int]]]`.  `SkipValidation` stores the
supplied value without validating it, so `codes` is kept as a raw
`PyVal`. -/
structure ServeVQPart where
  type : String
  codes : PyVal

/-- Construction of `ServeVQPart` from a keyword dict. -/
def ServeVQPart.validate (values : List (String × PyVal)) :
    Except (List String) ServeVQPart :=
  let ty := optField values "type" (validateLiteral ["vq"]) "vq"
  let cs := reqField values "codes" some
  match ty, cs with
  | some t, some c => .ok ⟨t, c⟩
  | _, _ => .error (errNames [("type", ty.isNone), ("codes", cs.isNone)])

/-- `class ServeRequest(BaseModel)`: `content: dict`, then
`max_new_tokens: int = 600`, `top_p: float = 0.7`,
`repetition_penalty: float = 1.2`, `temperature: float = 0.7`,
`streaming: bool = False`, `num_samples: int = 1`,
`early_stop_threshold: float = 1.0` — note: no `Field`/`conint`
constraints appear on any of these in the source. -/
structure ServeRequest where
  content : List (String × PyVal)
  max_new_tokens : ℤ
  top_p : ℚ
  repetition_penalty : ℚ
  temperature : ℚ
  streaming : Bool
  num_samples : ℤ
  early_stop_threshold : ℚ

/-- Construction of `ServeRequest` from a keyword dict: pure type
coercion per field, defaults for omitted fields, no range checks
(the source declares none). -/
def ServeRequest.validate (values : List (String × PyVal)) :
    Except (List String) ServeRequest :=
  let c := reqField values "content" validateDict
  let mnt := optField values "max_new_tokens" validateIntLax 600
  let tp := optField values "top_p" validateFloatLax (mkRat 7 10)
  let rp := optField values "repetition_penalty" validateFloatLax (mkRat 12 10)
  let tm := optField values "temperature" validateFloatLax (mkRat 7 10)
  let st := optField values "streaming" validateBoolLax false
  let ns := optField values "num_samples" validateIntLax 1
  let es := optField values "early_stop_threshold" validateFloatLax (mkRat 1 1)
  match c, mnt, tp, rp, tm, st, ns, es with
  | some c, some mnt, some tp, some rp, some tm, some st, some ns, some es =>
    .ok ⟨c, mnt, tp, rp, tm, st, ns, es⟩
  | _, _, _, _, _, _, _, _ =>
    .error (errNames
      [("content", c.isNone), ("max_new_tokens", mnt.isNone),
       ("top_p", tp.isNone), ("repetition_penalty", rp.isNone),
       ("temperature", tm.isNone), ("streaming", st.isNone),
       ("num_samples", ns.isNone), ("early_stop_threshold", es.isNone)])

/-- `class ServeReferenceAudio(BaseModel)`: `audio: bytes`,
`text: str`.  The `audio` field is kept as a `PyVal` so that "the value
stored after validation is bytes" is a provable statement about the
validator, not a typing assumption. -/
structure ServeReferenceAudio where
  audio : PyVal
  text : String

/-- `@model_validator(mode="before") def decode_audio(cls, values)`:
if `values.get("audio")` is a str of length > 255, try
`base64.b64decode` and on success replace the field with the decoded
bytes; on failure keep the original value (`except: pass`); anything
else passes through untouched. -/
def ServeReferenceAudio.decode_audio (values : List (String × PyVal)) :
    List (String × PyVal) :=
  match getVal values "audio" with
  | some (.vStr s) =>
    if 255 < s.length then
      match b64decode s with
      | some bs => setVal values "audio" (.vBytes bs)
      | none => values
    else values
  | _ => values

/-- Construction of `ServeReferenceAudio`: the before-validator
`decode_audio` runs first, then the `audio: bytes` and `text: str`
fields are validated. -/
def ServeReferenceAudio.validate (values : List (String × PyVal)) :
    Except (List String) ServeReferenceAudio :=
  let values := ServeReferenceAudio.decode_audio values
  let a := reqField values "audio" validateBytesField
  let t := reqField values "text" validateStr
  match a, t with
  | some a, some t => .ok ⟨a, t⟩
  | _, _ => .error (errNames [("audio", a.isNone), ("text", t.isNone)])

/-- `references: list[ServeReferenceAudio]`: each element must itself
construct a `ServeReferenceAudio` (mapping input). -/
def validateReferences : PyVal → Option (List ServeReferenceAudio)
  | .vList xs =>
    xs.mapM (fun v =>
      match v with
      | .vDict d => (ServeReferenceAudio.validate d).toOption
      | _ => none)
  | _ => none

/-- `class ServeTTSRequest(BaseModel)` with
`chunk_length: Annotated[int, conint(ge=100, le=300, strict=True)] = 200`,
`top_p: Annotated[float, Field(ge=0.1, le=1.0, strict=True)] = 0.8`,
`repetition_penalty: Annotated[float, Field(ge=0.9, le=2.0, strict=True)] = 1.1`,
`temperature: Annotated[float, Field(ge=0.1, le=1.0, strict=True)] = 0.8`
and the remaining unconstrained fields of the source. -/
structure ServeTTSRequest where
  text : String
  chunk_length : ℤ
  format : String
  references : List ServeReferenceAudio
  reference_id : Option String
  seed : Option ℤ
  use_memory_cache : String
  normalize : Bool
  streaming : Bool
  max_new_tokens : ℤ
  top_p : ℚ
  repetition_penalty : ℚ
  temperature : ℚ

/-- Construction of `ServeTTSRequest` from a keyword dict. -/
def ServeTTSRequest.validate (values : List (String × PyVal)) :
    Except (List String) ServeTTSRequest :=
  let tx := reqField values "text" validateStr
  let cl := optField values "chunk_length" (validateIntStrictBounded 100 300) 200
  let fm := optField values "format" (validateLiteral ["wav", "pcm", "mp3"]) "wav"
  let rf := optField values "references" validateReferences []
  let ri := optField values "reference_id" validateOptStr none
  let sd := optField values "seed" validateOptInt none
  let mc := optField values "use_memory_cache" (validateLiteral ["on", "off"]) "off"
  let nm := optField values "normalize" validateBoolLax true
  let st := optField values "streaming" validateBoolLax false
  let mnt := optField values "max_new_tokens" validateIntLax 1024
  let tp := optField values "top_p" (validateFloatStrictBounded (mkRat 1 10) (mkRat 1 1)) (mkRat 8 10)
  let rp := optField values "repetition_penalty" (validateFloatStrictBounded (mkRat 9 10) (mkRat 2 1)) (mkRat 11 10)
  let tm := optField values "temperature" (validateFloatStrictBounded (mkRat 1 10) (mkRat 1 1)) (mkRat 8 10)
  let r : Option ServeTTSRequest :=
    tx.bind fun tx => cl.bind fun cl => fm.bind fun fm => rf.bind fun rf =>
    ri.bind fun ri => sd.bind fun sd => mc.bind fun mc => nm.bind fun nm =>
    st.bind fun st => mnt.bind fun mnt => tp.bind fun tp => rp.bind fun rp =>
    tm.map fun tm => ⟨tx, cl, fm, rf, ri, sd, mc, nm, st, mnt, tp, rp, tm⟩
  match r with
  | some r => .ok r
  | none =>
    .error (errNames
      [("text", tx.isNone), ("chunk_length", cl.isNone), ("format", fm.isNone),
       ("references", rf.isNone), ("reference_id", ri.isNone),
       ("seed", sd.isNone), ("use_memory_cache", mc.isNone),
       ("normalize", nm.isNone), ("streaming", st.isNone),
       ("max_new_tokens", mnt.isNone), ("top_p", tp.isNone),
       ("repetition_penalty", rp.isNone), ("temperature", tm.isNone)])

/-- Python exceptions crossing the `AudioExample.load_from_path`
boundary. -/
inductive PyErr where
  | osError (path : String)
  | valueError (msg : String) (cause : PyErr)
  | validationError (fields : List String)

/-- `AudioExample.DEFAULT_AUDIO_PATH`. -/
def AudioExample.DEFAULT_AUDIO_PATH : String :=
  "/home/zjp/fish-speech/reference/cj_long.MP3"

/-- `AudioExample.load_from_path`: open the file, read all bytes,
construct a `ServeReferenceAudio`; any exception inside the `try` block
(the raw `OSError` from `open`/`read`, or a `ValidationError`) is caught
and re-raised as `ValueError(f"Failed to load audio from {path}: {e}")`
carrying the original cause.  The filesystem is passed in as a function
from path to file contents (`none` = the open/read raises). -/
def AudioExample.load_from_path (fs : String → Option (List Nat))
    (audio_path : String) (text : String) : Except PyErr ServeReferenceAudio :=
  match fs audio_path with
  | none =>
    .error (.valueError ("Failed to load audio from " ++ audio_path)
      (.osError audio_path))
  | some audio_bytes =>
    match ServeReferenceAudio.validate
        [("audio", .vBytes audio_bytes), ("text", .vStr text)] with
    | .ok r => .ok r
    | .error flds =>
      .error (.valueError ("Failed to load audio from " ++ audio_path)
        (.validationError flds))

/-- A 257-character string (all `a`): longer than 255 and not valid
base64 (257 data characters is 1 more than a multiple of 4). -/
def s257 : String :=
  "aaaaaaaaaaaaaaaaaaaaaaaaaaaaaaaaaaaaaaaaaaaaaaaaaaaaaaaaaaaaaaaaaaaaaaaaaaaaaaaaaaaaaaaaaaaaaaaaaaaaaaaaaaaaaaaaaaaaaaaaaaaaaaaaaaaaaaaaaaaaaaaaaaaaaaaaaaaaaaaaaaaaaaaaaaaaaaaaaaaaaaaaaaaaaaaaaaaaaaaaaaaaaaaaaaaaaaaaaaaaaaaaaaaaaaaaaaaaaaaaaaaaaaaaaaaaaaaaa"

/-- A 256-character string (all `a`): longer than 255 and valid base64. -/
def s256 : String :=
  "aaaaaaaaaaaaaaaaaaaaaaaaaaaaaaaaaaaaaaaaaaaaaaaaaaaaaaaaaaaaaaaaaaaaaaaaaaaaaaaaaaaaaaaaaaaaaaaaaaaaaaaaaaaaaaaaaaaaaaaaaaaaaaaaaaaaaaaaaaaaaaaaaaaaaaaaaaaaaaaaaaaaaaaaaaaaaaaaaaaaaaaaaaaaaaaaaaaaaaaaaaaaaaaaaaaaaaaaaaaaaaaaaaaaaaaaaaaaaaaaaaaaaaaaaaaaaaaa"

/-- The base64 decoding of `s256` (64 repetitions of the 3-byte block
that 4 `a` characters decode to). -/
def bs256 : List Nat := (List.replicate 64 [105, 166, 154]).flatten

/-- A TTS request payload supplying the required `text` plus the four
bounded numeric fields, each with its correct Python type. -/
def ttsInput (cl : ℤ) (tp rp tm : ℚ) : List (String × PyVal) :=
  [("text", .vStr "Hello"), ("chunk_length", .vInt cl), ("top_p", .vFloat tp),
   ("repetition_penalty", .vFloat rp), ("temperature", .vFloat tm)]

/-- If a required field validates to a value, the raw input held that
value under the field name and the field validator accepted it. -/
lemma reqField_eq_some {α : Type} {values : List (String × PyVal)} {name : String}
    {f : PyVal → Option α} {a : α} (h : reqField values name f = some a) :
    ∃ v, getVal values name = some v ∧ f v = some a := by
  unfold reqField at h
  rcases hg : getVal values name with _ | v
  · rw [hg] at h; exact absurd h (by simp)
  · rw [hg] at h; exact ⟨v, rfl, h⟩

/-- Whatever the `bytes` field validator accepts, it stores a bytes
value. -/
lemma validateBytesField_shape {v a : PyVal} (h : validateBytesField v = some a) :
    ∃ bs, a = .vBytes bs := by
  cases v <;> simp [validateBytesField] at h <;> exact ⟨_, h.symm⟩

/-- C1 (counterexample): the claim says `ServeRequest` construction
fails with a ValidationError whenever `max_new_tokens < 0`, `top_p` is
outside (0,1], `temperature ≤ 0` or `num_samples < 1`.  In the source
none of these fields carries a constraint, and a request violating all
four bounds at once constructs successfully. -/
theorem serveRequest_out_of_bounds_accepted :
    ServeRequest.validate
      [("content", .vDict []), ("max_new_tokens", .vInt (-5)),
       ("top_p", .vFloat (mkRat 5 1)), ("temperature", .vFloat (mkRat (-1) 1)),
       ("num_samples", .vInt 0)]
      = .ok ⟨[], -5, mkRat 5 1, mkRat 12 10, mkRat (-1) 1, false, 0, mkRat 1 1⟩ := rfl

/-- C1 (amended): `ServeRequest` performs no range validation at all:
for every well-typed assignment of its fields — any `max_new_tokens`
and `num_samples` in ℤ, any `top_p`, `repetition_penalty` and
`temperature` in ℚ — construction succeeds and stores the values
unchanged; only type/shape errors can fail construction. -/
theorem serveRequest_no_range_validation (content : List (String × PyVal))
    (mnt ns : ℤ) (tp rp tm es : ℚ) (st : Bool) :
    ServeRequest.validate
      [("content", .vDict content), ("max_new_tokens", .vInt mnt),
       ("top_p", .vFloat tp), ("repetition_penalty", .vFloat rp),
       ("temperature", .vFloat tm), ("streaming", .vBool st),
       ("num_samples", .vInt ns), ("early_stop_threshold", .vFloat es)]
      = .ok ⟨content, mnt, tp, rp, tm, st, ns, es⟩ := rfl

/-- C2: for every audio string longer than 255 characters on which
`base64.b64decode` fails, the `decode_audio` validator swallows the
failure and keeps the original string, construction still succeeds, and
the stored `audio` value is that original un-decoded string (held as
its UTF-8 bytes, since the `audio: bytes` field encodes a retained
str); `text` is passed through unchanged. -/
theorem referenceAudio_invalid_base64_retained (s text : String)
    (hlen : 255 < s.length) (hdec : b64decode s = none) :
    ServeReferenceAudio.decode_audio [("audio", .vStr s), ("text", .vStr text)]
      = [("audio", .vStr s), ("text", .vStr text)] ∧
    ServeReferenceAudio.validate [("audio", .vStr s), ("text", .vStr text)]
      = .ok ⟨.vBytes (utf8Encode s), text⟩ := by
  constructor
  · simp [ServeReferenceAudio.decode_audio, getVal, List.find?, hlen, hdec]
  · simp [ServeReferenceAudio.validate, ServeReferenceAudio.decode_audio, getVal,
      List.find?, reqField, hlen, hdec, validateBytesField, validateStr]

/-- C2 (witness): the 257-character string `s257` is longer than 255,
fails base64 decoding, and is retained un-decoded. -/
theorem referenceAudio_invalid_base64_retained_witness :
    ServeReferenceAudio.decode_audio [("audio", .vStr s257), ("text", .vStr "hi")]
      = [("audio", .vStr s257), ("text", .vStr "hi")] ∧
    ServeReferenceAudio.validate [("audio", .vStr s257), ("text", .vStr "hi")]
      = .ok ⟨.vBytes (utf8Encode s257), "hi"⟩ :=
  referenceAudio_invalid_base64_retained s257 "hi" (by decide) (by decide)

/-- C3: whenever `ServeReferenceAudio` construction succeeds, the stored
`audio` value is bytes — never a str (a retained str is UTF-8 encoded
by the `audio: bytes` field validation). -/
theorem referenceAudio_audio_always_bytes (values : List (String × PyVal))
    (r : ServeReferenceAudio) (h : ServeReferenceAudio.validate values = .ok r) :
    ∃ bs, r.audio = PyVal.vBytes bs := by
  simp only [ServeReferenceAudio.validate] at h
  rcases hA : reqField (ServeReferenceAudio.decode_audio values) "audio"
      validateBytesField with _ | a
  · rcases hT : reqField (ServeReferenceAudio.decode_audio values) "text"
        validateStr with _ | t <;> rw [hA, hT] at h <;> simp at h
  · rcases hT : reqField (ServeReferenceAudio.decode_audio values) "text"
        validateStr with _ | t
    · rw [hA, hT] at h; simp at h
    · rw [hA, hT] at h
      simp at h
      rcases reqField_eq_some hA with ⟨v, hv, hf⟩
      rcases validateBytesField_shape hf with ⟨bs, rfl⟩
      exact ⟨bs, by rw [← h]⟩

/-- C3 (witness): a record built from a short string input stores bytes. -/
theorem referenceAudio_audio_always_bytes_witness :
    ∃ bs, (ServeReferenceAudio.mk (PyVal.vBytes (utf8Encode "abc")) "t").audio
      = PyVal.vBytes bs :=
  referenceAudio_audio_always_bytes
    [("audio", PyVal.vStr "abc"), ("text", PyVal.vStr "t")]
    ⟨PyVal.vBytes (utf8Encode "abc"), "t"⟩ rfl

/-- C4: with `text` supplied and the four bounded fields given with
their correct types, `ServeTTSRequest` construction succeeds exactly
when `chunk_length` is in [100,300], `top_p` in [0.1,1.0],
`repetition_penalty` in [0.9,2.0] and `temperature` in [0.1,1.0] — all
bounds inclusive, so 100, 200, 300 and the float endpoints succeed
while 99 and 301 fail. -/
theorem ttsRequest_bounds_iff (cl : ℤ) (tp rp tm : ℚ) :
    exceptIsOk (ServeTTSRequest.validate (ttsInput cl tp rp tm)) = true ↔
      ((100 ≤ cl ∧ cl ≤ 300) ∧ ((0.1 : ℚ) ≤ tp ∧ tp ≤ (1.0 : ℚ)) ∧
       ((0.9 : ℚ) ≤ rp ∧ rp ≤ (2.0 : ℚ)) ∧ ((0.1 : ℚ) ≤ tm ∧ tm ≤ (1.0 : ℚ))) := by
  have e1 : (0.1 : ℚ) = mkRat 1 10 := by norm_num
  have e2 : (1.0 : ℚ) = 1 := by norm_num
  have e3 : (0.9 : ℚ) = mkRat 9 10 := by norm_num
  have e4 : (2.0 : ℚ) = 2 := by norm_num
  rw [e1, e2, e3, e4]
  by_cases h1 : (100 ≤ cl ∧ cl ≤ 300) <;>
  by_cases h2 : (mkRat 1 10 ≤ tp ∧ tp ≤ 1) <;>
  by_cases h3 : (mkRat 9 10 ≤ rp ∧ rp ≤ 2) <;>
  by_cases h4 : (mkRat 1 10 ≤ tm ∧ tm ≤ 1) <;>
  simp [ServeTTSRequest.validate, ttsInput, reqField, optField, getVal, List.find?,
    validateStr, validateIntStrictBounded, validateFloatStrictBounded, validateLiteral,
    validateReferences, validateOptStr, validateOptInt, validateBoolLax, validateIntLax,
    exceptIsOk, errNames, h1, h2, h3, h4]

/-- C4 (witness): the boundary request (chunk_length 300, top_p 1.0,
repetition_penalty 0.9, temperature 0.1) is accepted. -/
theorem ttsRequest_bounds_iff_witness :
    exceptIsOk (ServeTTSRequest.validate
      (ttsInput 300 (mkRat 10 10) (mkRat 9 10) (mkRat 1 10))) = true :=
  (ttsRequest_bounds_iff 300 (mkRat 10 10) (mkRat 9 10) (mkRat 1 10)).mpr
    (by constructor <;> [decide; constructor <;> [norm_num; constructor <;> norm_num]])

/-- C5: for every audio string of at most 255 characters, `decode_audio`
attempts no decode and leaves the input untouched, and the constructed
record stores that unchanged string (as its UTF-8 bytes, via the
`audio: bytes` field). -/
theorem referenceAudio_short_string_passthrough (s text : String)
    (hlen : s.length ≤ 255) :
    ServeReferenceAudio.decode_audio [("audio", .vStr s), ("text", .vStr text)]
      = [("audio", .vStr s), ("text", .vStr text)] ∧
    ServeReferenceAudio.validate [("audio", .vStr s), ("text", .vStr text)]
      = .ok ⟨.vBytes (utf8Encode s), text⟩ := by
  have h : ¬ (255 < s.length) := not_lt.mpr hlen
  constructor
  · simp [ServeReferenceAudio.decode_audio, getVal, List.find?, h]
  · simp [ServeReferenceAudio.validate, ServeReferenceAudio.decode_audio, getVal,
      List.find?, reqField, h, validateBytesField, validateStr]

/-- C5 (witness): the 5-character string "short" passes through. -/
theorem referenceAudio_short_string_passthrough_witness :
    ServeReferenceAudio.decode_audio
      [("audio", .vStr "short"), ("text", .vStr "hi")]
      = [("audio", .vStr "short"), ("text", .vStr "hi")] ∧
    ServeReferenceAudio.validate [("audio", .vStr "short"), ("text", .vStr "hi")]
      = .ok ⟨.vBytes (utf8Encode "short"), "hi"⟩ :=
  referenceAudio_short_string_passthrough "short" "hi" (by decide)

/-- C6: for every valid-base64 audio string longer than 255 characters,
construction succeeds, the stored `audio` value is the base64-decoded
bytes, and `text` is passed through unchanged. -/
theorem referenceAudio_valid_base64_decoded (s text : String) (bs : List Nat)
    (hlen : 255 < s.length) (hdec : b64decode s = some bs) :
    ServeReferenceAudio.validate [("audio", .vStr s), ("text", .vStr text)]
      = .ok ⟨.vBytes bs, text⟩ := by
  simp [ServeReferenceAudio.validate, ServeReferenceAudio.decode_audio, getVal, setVal,
    List.find?, reqField, hlen, hdec, validateBytesField, validateStr]

/-- C6 (witness): the 256-character string `s256` decodes to `bs256`
and the record stores exactly those bytes. -/
theorem referenceAudio_valid_base64_decoded_witness :
    ServeReferenceAudio.validate [("audio", .vStr s256), ("text", .vStr "hi")]
      = .ok ⟨.vBytes bs256, "hi"⟩ :=
  referenceAudio_valid_base64_decoded s256 "hi" bs256 (by decide) (by decide)

/-- C7: a `ServeRequest` built from `content={}` alone takes exactly
the source defaults: max_new_tokens 600, top_p 0.7,
repetition_penalty 1.2, temperature 0.7, streaming false,
num_samples 1, early_stop_threshold 1.0. -/
theorem serveRequest_defaults :
    ServeRequest.validate [("content", .vDict [])]
      = .ok ⟨[], 600, (0.7 : ℚ), (1.2 : ℚ), (0.7 : ℚ), false, 1, (1.0 : ℚ)⟩ := by
  have e7 : (0.7 : ℚ) = mkRat 7 10 := by norm_num
  have e12 : (1.2 : ℚ) = mkRat 12 10 := by norm_num
  have e1 : (1.0 : ℚ) = mkRat 1 1 := by norm_num
  rw [e7, e12, e1]
  rfl

/-- C8: `AudioExample.load_from_path` wraps every read failure in a
ValueError carrying the path and the original cause, never surfaces the
raw filesystem error itself, and on success returns a record holding
the file contents as `audio` and the given transcript as `text`. -/
theorem load_from_path_wraps_errors (fs : String → Option (List Nat))
    (path text : String) :
    (fs path = none →
      AudioExample.load_from_path fs path text
        = .error (.valueError ("Failed to load audio from " ++ path)
            (.osError path))) ∧
    (∀ bs, fs path = some bs →
      AudioExample.load_from_path fs path text = .ok ⟨.vBytes bs, text⟩) ∧
    (∀ e, AudioExample.load_from_path fs path text ≠ .error (.osError e)) := by
  have h1 : fs path = none →
      AudioExample.load_from_path fs path text
        = .error (.valueError ("Failed to load audio from " ++ path)
            (.osError path)) :=
    fun h => by unfold AudioExample.load_from_path; rw [h]
  have h2 : ∀ bs, fs path = some bs →
      AudioExample.load_from_path fs path text = .ok ⟨.vBytes bs, text⟩ :=
    fun bs h => by unfold AudioExample.load_from_path; rw [h]; rfl
  refine ⟨h1, h2, fun e hc => ?_⟩
  rcases hfs : fs path with _ | bs
  · rw [h1 hfs] at hc
    exact PyErr.noConfusion (Except.error.inj hc)
  · rw [h2 bs hfs] at hc
    exact Except.noConfusion hc

/-- C8 (witness): a filesystem with no files makes the loader fail with
the wrapping ValueError (cause preserved), not the raw OSError. -/
theorem load_from_path_wraps_errors_witness :
    AudioExample.load_from_path (fun _ => none) "/missing.mp3" "transcript"
      = .error (.valueError ("Failed to load audio from " ++ "/missing.mp3")
          (.osError "/missing.mp3")) :=
  (load_from_path_wraps_errors (fun _ => none) "/missing.mp3" "transcript").1 rfl

/-- C9: a mapping with discriminator "vq" and
codes = [[1,2,3],[4,5,6]] constructs a `ServeVQPart` whose `codes`
equals exactly that nested sequence, outer and inner order preserved
(SkipValidation stores the value as given). -/
theorem serveVQPart_codes_preserved :
    ServeVQPart.validate
      [("type", .vStr "vq"),
       ("codes", .vList [.vList [.vInt 1, .vInt 2, .vInt 3],
                         .vList [.vInt 4, .vInt 5, .vInt 6]])]
      = .ok ⟨"vq", .vList [.vList [.vInt 1, .vInt 2, .vInt 3],
                           .vList [.vInt 4, .vInt 5, .vInt 6]]⟩ := rfl

/-- C10 (counterexample): the claim says supplying the integer 1 for
`top_p` fails construction; in fact pydantic strict-mode `float`
accepts ints, so the request constructs successfully with top_p
coerced to 1.0. -/
theorem ttsRequest_strict_float_accepts_int :
    exceptIsOk (ServeTTSRequest.validate
      [("text", .vStr "hi"), ("top_p", .vInt 1)]) = true := by decide

/-- C10 (amended): `chunk_length` is strictly typed — the float 200.0
and the string "200" both fail despite being numerically in range —
and the strict float fields reject strings ("0.5" fails for top_p and
temperature), but the strict float fields accept integers: the integer
1 for `top_p` or `temperature` succeeds, stored as 1.0. -/
theorem ttsRequest_strict_typing_amended :
    exceptIsOk (ServeTTSRequest.validate
      [("text", .vStr "hi"), ("chunk_length", .vFloat (mkRat 200 1))]) = false ∧
    exceptIsOk (ServeTTSRequest.validate
      [("text", .vStr "hi"), ("chunk_length", .vStr "200")]) = false ∧
    exceptIsOk (ServeTTSRequest.validate
      [("text", .vStr "hi"), ("top_p", .vStr "0.5")]) = false ∧
    exceptIsOk (ServeTTSRequest.validate
      [("text", .vStr "hi"), ("temperature", .vStr "0.5")]) = false ∧
    ServeTTSRequest.validate [("text", .vStr "hi"), ("top_p", .vInt 1)]
      = .ok ⟨"hi", 200, "wav", [], none, none, "off", true, false, 1024,
             (1 : ℚ), (1.1 : ℚ), (0.8 : ℚ)⟩ ∧
    ServeTTSRequest.validate [("text", .vStr "hi"), ("temperature", .vInt 1)]
      = .ok ⟨"hi", 200, "wav", [], none, none, "off", true, false, 1024,
             (0.8 : ℚ), (1.1 : ℚ), (1 : ℚ)⟩ := by
  have e11 : (1.1 : ℚ) = mkRat 11 10 := by norm_num
  have e08 : (0.8 : ℚ) = mkRat 8 10 := by norm_num
  rw [e11, e08]
  exact ⟨by decide, by decide, by decide, by decide, rfl, rfl⟩

end FishSpeech
